import Mathlib

/-!
Verification development for the lazy computation-graph core
(torch/csrc/lazy/core/ir.cpp) and the nested flash-attention backward entry
point (aten/src/ATen/native/nested/cuda/NestedTensorTransformerFunctionsBackward.cpp).

The C++ code is shallowly embedded: machine integers become Nat/Int, the
process-wide trace buffer becomes an explicit TraceState value, the memoized
static local of Node::enableDynamicShape becomes an explicit Option Bool
threaded through a call sequence, and opaque external services (hash
combinators from hash.h, tensor packing and the dense attention kernel) are
modelled from the spec or taken as parameters.
-/

namespace torch.lazy

/-- Modelled from the spec: the hash type of the hash utility header
(lazy/core/hash.h, not under src/). The spec describes a fixed-width
structural digest; it is modelled as a natural number reduced modulo 2^64. -/
abbrev hash_t := Nat

/-- Modelled from the spec: the hash combinator of the hash utility header
(not under src/) that mixes two hash values into one fixed-width digest.
The concrete mixing formula is not given by the spec; any fixed-width mixing
function is faithful, and none of the verified claims depend on the formula. -/
def HashCombine (a b : hash_t) : hash_t := (a * 1099511628211 + b) % 2 ^ 64

/-- Modelled from the spec: the Hash function of the hash utility header
(not under src/) applied to an integer field. -/
def Hash (i : Nat) : hash_t := i % 2 ^ 64

/-- Modelled from the spec: StringHash of the hash utility header (not under
src/), a stable structural hash of a qualified operator name. -/
def StringHash (s : String) : hash_t :=
  s.foldl (fun h c => HashCombine h (Hash c.toNat)) 17

/-- OpKind: a light wrapper around an interned qualified operator name. -/
structure OpKind where
  op : String
deriving DecidableEq

/-- OpKind::Get — interns an operator by qualified string name. -/
def OpKind.Get (name : String) : OpKind := { op := name }

/-- OpKind::hash — StringHash(op.toQualString()). -/
def OpKind.hash (k : OpKind) : hash_t := StringHash k.op

/-- Modelled from the spec: the debug metadata captured by
GetMetaDataIfDebugging (ir_metadata.h, not under src/): an optional scope
string and source-frame info, a pure side channel that never affects hashing
or equality. -/
structure MetaData where
  scope : String
  frame_info : List String
deriving DecidableEq

/-- The empty/default debug metadata (debug flag off). -/
def emptyMeta : MetaData := { scope := "", frame_info := [] }

/-- Node: the DAG vertex of torch/csrc/lazy/core/ir.cpp. Field names follow
the C++ members (without the trailing underscore); the spec calls
node_list_index the trace_index. -/
structure Node where
  op : OpKind
  num_outputs : Nat
  node_hash : hash_t
  dag_hash_without_sizes : hash_t
  dag_hash_with_sizes : hash_t
  metadata : MetaData
  node_list_index : Nat
deriving DecidableEq

/-- Modelled from the spec: the Node::hash() accessor (ir.h, not under src/),
the primary identity hash of the node. -/
def Node.hash (n : Node) : hash_t := n.node_hash

/-- Modelled from the spec: the Node::hash_with_sizes() accessor (ir.h, not
under src/). -/
def Node.hash_with_sizes (n : Node) : hash_t := n.dag_hash_with_sizes

/-- Modelled from the spec: the Node::hash_without_sizes() accessor (ir.h,
not under src/). -/
def Node.hash_without_sizes (n : Node) : hash_t := n.dag_hash_without_sizes

/-- The process-wide trace buffer: the two static members
Node::node_list (current session) and Node::last_node_list (previous
session), each an ordered sequence of node ownership handles. -/
structure TraceState where
  node_list : List Node
  last_node_list : List Node
deriving DecidableEq

/-- Node::NextNodeListIndex — returns node_list.size(). -/
def NextNodeListIndex (s : TraceState) : Nat := s.node_list.length

/-- Node::PushIntoNodeList — node_list.push_back(node). -/
def PushIntoNodeList (s : TraceState) (n : Node) : TraceState :=
  { s with node_list := s.node_list ++ [n] }

/-- Node::ClearNodeList — last_node_list.clear() followed by
std::swap(last_node_list, node_list). -/
def ClearNodeList (s : TraceState) : TraceState :=
  let cleared : TraceState := { s with last_node_list := [] }
  { node_list := cleared.last_node_list, last_node_list := cleared.node_list }

/-- One call of Node::enableDynamicShape, as a transition on the memoized
static local `enabled` (none before the first call; some b afterwards,
where b recorded whether getenv("LTC_ENABLE_DYNAMIC_SHAPES") was non-null at
the first call). envPresent is the current presence of the environment
variable, flag the current value of FLAGS_ltc_enable_dynamic_shapes.
Returns the call result and the updated memo. -/
def enableDynamicShapeStep (envPresent flag : Bool) (memo : Option Bool) :
    Bool × Option Bool :=
  match memo with
  | none => (envPresent || flag, some envPresent)
  | some e => (e || flag, some e)

/-- A sequence of calls to Node::enableDynamicShape. Each list element gives
the environment-variable presence and flag value at that call; the result is
the list of returned values, threading the memoized static local. -/
def enableDynamicShapeCalls : Option Bool → List (Bool × Bool) → List Bool
  | _, [] => []
  | memo, c :: cs =>
    let r := enableDynamicShapeStep c.1 c.2 memo
    r.1 :: enableDynamicShapeCalls r.2 cs

/-- Node::Node(op, num_outputs, node_hash, dag_hash_fn) — the explicit
node-hash constructor: node_hash_ is the supplied hash,
dag_hash_without_sizes_ = dag_hash_fn(false),
dag_hash_with_sizes_ = dag_hash_fn(true),
metadata_ = GetMetaDataIfDebugging() (passed as the meta argument),
node_list_index_ = NextNodeListIndex(). -/
def Node.mkExplicitHash (op : OpKind) (num_outputs : Nat) (node_hash : hash_t)
    (dag_hash_fn : Bool → hash_t) (meta : MetaData) (s : TraceState) : Node :=
  { op := op
    num_outputs := num_outputs
    node_hash := node_hash
    dag_hash_without_sizes := dag_hash_fn false
    dag_hash_with_sizes := dag_hash_fn true
    metadata := meta
    node_list_index := NextNodeListIndex s }

/-- Node::Node(op, num_outputs, node_hash_fn) — the derived node-hash
constructor: node_hash_ = node_hash_fn(!enableDynamicShape()),
dag_hash_without_sizes_ = node_hash_fn(false),
dag_hash_with_sizes_ = node_hash_fn(true). The dyn argument is the value
enableDynamicShape() returns at construction time. -/
def Node.mkDerivedHash (op : OpKind) (num_outputs : Nat)
    (node_hash_fn : Bool → hash_t) (meta : MetaData) (dyn : Bool)
    (s : TraceState) : Node :=
  { op := op
    num_outputs := num_outputs
    node_hash := node_hash_fn (!dyn)
    dag_hash_without_sizes := node_hash_fn false
    dag_hash_with_sizes := node_hash_fn true
    metadata := meta
    node_list_index := NextNodeListIndex s }

/-- The inputs of one Node construction, covering both constructor forms. -/
inductive NodeSpec where
  | explicitHash (op : OpKind) (num_outputs : Nat) (node_hash : hash_t)
      (dag_hash_fn : Bool → hash_t) (meta : MetaData)
  | derivedHash (op : OpKind) (num_outputs : Nat)
      (node_hash_fn : Bool → hash_t) (meta : MetaData) (dyn : Bool)

/-- Run the constructor selected by a NodeSpec against the current trace
state. -/
def Node.construct : NodeSpec → TraceState → Node
  | .explicitHash op n h fn m, s => Node.mkExplicitHash op n h fn m s
  | .derivedHash op n fn m dyn, s => Node.mkDerivedHash op n fn m dyn s

/-- Modelled from the spec: the node factory (MakeNode in ir.h, not under
src/) that constructs a Node and appends it to the current trace buffer via
Node::PushIntoNodeList, per the spec sentence that on construction a node
"assigns trace_index via the trace buffer next-index counter, and appends
itself to the trace buffer". -/
def makeNode (sp : NodeSpec) (s : TraceState) : Node × TraceState :=
  let n := Node.construct sp s
  (n, PushIntoNodeList s n)

/-- Construct a sequence of nodes in order, each appended to the trace. -/
def buildNodes (sps : List NodeSpec) (s : TraceState) : TraceState :=
  sps.foldl (fun st sp => (makeNode sp st).2) s

/-- Output: the non-owning edge reference { const Node* node; size_t index }.
The raw pointer is embedded as the node value. -/
structure Output where
  node : Node
  index : Nat

/-- Value: the shared-ownership edge reference { NodePtr node; size_t index }.
The shared handle is embedded as the node value. -/
structure Value where
  node : Node
  index : Nat

/-- Output::operator==(const Value&) as shipped: the body prints a diagnostic
line and then unconditionally executes a first `return false;` statement; the
hash/index comparison on the following line is unreachable dead code. The
printf side effect is not modelled. -/
def Output.eqValue (_o : Output) (_v : Value) : Bool :=
  false

/-- The unreachable comparison that follows the early return inside
Output::operator==(const Value&):
node->hash() == rhs.node()->hash() && index == rhs.index. -/
def Output.eqValueDead (o : Output) (v : Value) : Bool :=
  (o.node.hash == v.node.hash) && (o.index == v.index)

/-- Output::hash — HashCombine(node->hash(), Hash(index)). -/
def Output.hash (o : Output) : hash_t := HashCombine o.node.hash (Hash o.index)

/-- Value::hash — HashCombine(node()->hash(), Hash(index)). -/
def Value.hash (v : Value) : hash_t := HashCombine v.node.hash (Hash v.index)

/-- Value::hash_with_sizes — HashCombine(node()->hash_with_sizes(), Hash(index)). -/
def Value.hash_with_sizes (v : Value) : hash_t :=
  HashCombine v.node.hash_with_sizes (Hash v.index)

/-- Value::hash_without_sizes — HashCombine(node()->hash_without_sizes(), Hash(index)). -/
def Value.hash_without_sizes (v : Value) : hash_t :=
  HashCombine v.node.hash_without_sizes (Hash v.index)

/-- The qualified operator name used by the concrete scenario nodes. -/
def addName : String := "add"

/-- Scenario node A: op "add", one output, explicit node hash 5. -/
def nodeA : Node :=
  Node.mkExplicitHash (OpKind.Get addName) 1 5 (fun _ => 5) emptyMeta
    { node_list := [], last_node_list := [] }

/-- Scenario node B: constructed independently from the same inputs as A. -/
def nodeB : Node :=
  Node.mkExplicitHash (OpKind.Get addName) 1 5 (fun _ => 5) emptyMeta
    { node_list := [], last_node_list := [] }

/-- A size-sensitive hash callback: different digests with and without
sizes. -/
def sizeSensitiveFn : Bool → hash_t := fun b => if b then 1 else 0

/-- The trace indices recorded in a buffer, in buffer order. -/
def traceIndices (s : TraceState) : List Nat :=
  s.node_list.map (fun n => n.node_list_index)

/-- Concrete construction sequence used to witness the trace-index claim. -/
def twoSpecs : List NodeSpec :=
  [NodeSpec.derivedHash (OpKind.Get addName) 1 sizeSensitiveFn emptyMeta false,
   NodeSpec.explicitHash (OpKind.Get addName) 2 3 (fun _ => 3) emptyMeta]

end torch.lazy

namespace native

/-- An ATen tensor, modelled by definedness plus an opaque payload identifier:
none is an undefined tensor (a default-constructed Tensor{}, for which
defined() is false), some d is a defined tensor with opaque content d. -/
abbrev Tensor := Option Nat

/-- A C++ double, modelled as an opaque token: the entry point only passes
these values through unchanged, so no floating-point semantics is needed. -/
abbrev CDouble := Nat

/-- The argument list of the dense kernel call at::_flash_attention_backward,
in the positional order of the call site. -/
structure FlashBackwardArgs where
  grad_out : Tensor
  query : Tensor
  key : Tensor
  value : Tensor
  out : Tensor
  logsumexp : Tensor
  cum_seq_q : Tensor
  cum_seq_k : Tensor
  max_q : Int
  max_k : Int
  dropout_p : CDouble
  is_causal : Bool
  philox_seed : Int
  philox_offset : Int
  scale : Option CDouble
deriving DecidableEq

/-- One external call made by the entry point, recorded with its arguments. -/
inductive SdpaEvent where
  | preproBackward (grad_out query key value out cum_seq_q cum_seq_k : Tensor)
      (max_q max_k : Int)
  | flashAttentionBackward (args : FlashBackwardArgs)
  | postproBackward (query key value grad_q grad_k grad_v : Tensor)
deriving DecidableEq

/-- The opaque external services invoked by the entry point:
preprocessing::sdpa_nested_preprocessing_backward (declared in
NestedTensorTransformerUtils.h, returning the five reshaped buffers),
at::_flash_attention_backward (the dense kernel), and
preprocessing::sdpa_nested_postprocessing_backward. Their behaviour is
outside this core; they are parameters of the embedding. -/
structure SdpaExterns where
  prepro :
    Tensor → Tensor → Tensor → Tensor → Tensor → Tensor → Tensor → Int → Int →
      Tensor × Tensor × Tensor × Tensor × Tensor
  kernel : FlashBackwardArgs → Tensor × Tensor × Tensor
  postpro : Tensor → Tensor → Tensor → Tensor → Tensor → Tensor →
      Tensor × Tensor × Tensor

/-- at::native::_scaled_dot_product_flash_attention_backward_nested (the
leading underscore is dropped for Lean). Returns the gradient triple
together with the ordered list of external calls performed. If grad_out_ is
undefined the function returns three default-constructed tensors
immediately; otherwise it packs (grad_out_, query, key, value, out) via the
preprocessing service, invokes the dense kernel on the reshaped buffers with
all remaining arguments forwarded unchanged, and post-processes the dense
gradients back to nested shape. -/
def scaled_dot_product_flash_attention_backward_nested
    (ext : SdpaExterns)
    (grad_out_ query key value out logsumexp : Tensor)
    (cumulative_sequence_length_q cumulative_sequence_length_k : Tensor)
    (max_seqlen_batch_q max_seqlen_batch_k : Int)
    (dropout_p : CDouble) (is_causal : Bool)
    (philox_seed philox_offset : Int) (scale : Option CDouble) :
    (Tensor × Tensor × Tensor) × List SdpaEvent :=
  if !grad_out_.isSome then ((none, none, none), []) else
  let pre := ext.prepro grad_out_ query key value out
    cumulative_sequence_length_q cumulative_sequence_length_k
    max_seqlen_batch_q max_seqlen_batch_k
  let grad_out_buffer_reshaped := pre.1
  let query_buffer_reshaped := pre.2.1
  let key_buffer_reshaped := pre.2.2.1
  let value_buffer_reshaped := pre.2.2.2.1
  let output_buffer_reshaped := pre.2.2.2.2
  let args : FlashBackwardArgs :=
    { grad_out := grad_out_buffer_reshaped
      query := query_buffer_reshaped
      key := key_buffer_reshaped
      value := value_buffer_reshaped
      out := output_buffer_reshaped
      logsumexp := logsumexp
      cum_seq_q := cumulative_sequence_length_q
      cum_seq_k := cumulative_sequence_length_k
      max_q := max_seqlen_batch_q
      max_k := max_seqlen_batch_k
      dropout_p := dropout_p
      is_causal := is_causal
      philox_seed := philox_seed
      philox_offset := philox_offset
      scale := scale }
  let grads := ext.kernel args
  let res := ext.postpro query key value grads.1 grads.2.1 grads.2.2
  (res,
    [SdpaEvent.preproBackward grad_out_ query key value out
       cumulative_sequence_length_q cumulative_sequence_length_k
       max_seqlen_batch_q max_seqlen_batch_k,
     SdpaEvent.flashAttentionBackward args,
     SdpaEvent.postproBackward query key value grads.1 grads.2.1 grads.2.2])

end native

namespace torch.lazy

/-- Node constructed by the derived-hash form, dynamic-shape mode false, with
a size-sensitive callback — used to test the node-hash binding. -/
def derivedNodeNoDyn : Node :=
  Node.mkDerivedHash (OpKind.Get addName) 1 sizeSensitiveFn emptyMeta false
    { node_list := [], last_node_list := [] }

/-- Node constructed by the explicit-hash form with supplied node hash 7 and
a size-sensitive callback — used to test the node-hash binding. -/
def explicitNode7 : Node :=
  Node.mkExplicitHash (OpKind.Get addName) 1 7 sizeSensitiveFn emptyMeta
    { node_list := [], last_node_list := [] }

/-- After the first call has memoized the environment presence e, every later
call returns e OR the flag current at that call; the environment column of
the trace is ignored. -/
theorem enableDynamicShapeCalls_some (cs : List (Bool × Bool)) (e : Bool) :
    enableDynamicShapeCalls (some e) cs = cs.map (fun c => e || c.2) := by
  induction cs with
  | nil => rfl
  | cons c cs ih =>
    simp only [enableDynamicShapeCalls, enableDynamicShapeStep, List.map_cons]
    exact congrArg _ ih

/-- Both constructor forms assign node_list_index from
NextNodeListIndex, the current trace length. -/
theorem Node.construct_index (sp : NodeSpec) (s : TraceState) :
    (Node.construct sp s).node_list_index = s.node_list.length := by
  cases sp <;> rfl

/-- Pushing one node appends its trace index to the recorded index list. -/
theorem traceIndices_push (s : TraceState) (n : Node) :
    traceIndices (PushIntoNodeList s n) = traceIndices s ++ [n.node_list_index] := by
  simp [traceIndices, PushIntoNodeList]

/-- Building a list of nodes appends the consecutive indices
s.node_list.length, s.node_list.length + 1, ... to the recorded index
list. -/
theorem traceIndices_buildNodes (sps : List NodeSpec) (s : TraceState) :
    traceIndices (buildNodes sps s) =
      traceIndices s ++ List.range' s.node_list.length sps.length := by
  induction sps generalizing s with
  | nil => simp [buildNodes]
  | cons sp sps ih =>
    have hstep : buildNodes (sp :: sps) s =
        buildNodes sps (PushIntoNodeList s (Node.construct sp s)) := rfl
    have hlen : (PushIntoNodeList s (Node.construct sp s)).node_list.length =
        s.node_list.length + 1 := by
      simp [PushIntoNodeList]
    rw [hstep, ih, traceIndices_push, hlen, Node.construct_index,
      List.append_assoc, List.length_cons, List.range'_succ]
    rfl

/-- C1: the spec claims Output::operator==(const Value&) compares the two
referenced nodes by content hash and index, and that for independently built
nodes A and B with identical op, arity and hash, Output(A,0) == Value(B,0)
is true. The shipped code prints a diagnostic and unconditionally returns
false; the content-hash comparison on the next line is dead code. At the
spec scenario input the shipped operator returns false while the dead
comparison (the evident intent, also quoted by the spec) returns true and
the two node hashes are indeed equal. -/
theorem C1_shipped_equality_always_false :
    nodeA.hash = nodeB.hash ∧
    Output.eqValue { node := nodeA, index := 0 } { node := nodeB, index := 0 } = false ∧
    Output.eqValueDead { node := nodeA, index := 0 } { node := nodeB, index := 0 } = true :=
  ⟨rfl, rfl, rfl⟩

/-- C2 counterexample: with dynamic-shape mode false at construction, a
derived-hash node built from a size-sensitive callback has node_hash equal
to the with-sizes digest (callback at true), not the without-sizes digest
the claim names; and an explicit-hash node keeps its supplied hash, which
matches neither dag field at this input. -/
theorem C2_counterexample :
    derivedNodeNoDyn.node_hash ≠ derivedNodeNoDyn.dag_hash_without_sizes ∧
    explicitNode7.node_hash ≠ explicitNode7.dag_hash_without_sizes ∧
    explicitNode7.node_hash ≠ explicitNode7.dag_hash_with_sizes := by
  refine ⟨?_, ?_, ?_⟩ <;> decide

/-- C2 amended: the derived-hash constructor evaluates the callback at
NOT(dynamic-shape mode): with mode false, node_hash equals
dag_hash_with_sizes; with mode true, node_hash equals
dag_hash_without_sizes. The explicit-hash constructor stores the supplied
node hash unchanged, independent of the mode. -/
theorem C2_node_hash_binding (op : OpKind) (n : Nat) (fn : Bool → hash_t)
    (m : MetaData) (h : hash_t) (s : TraceState) :
    (Node.mkDerivedHash op n fn m false s).node_hash =
      (Node.mkDerivedHash op n fn m false s).dag_hash_with_sizes ∧
    (Node.mkDerivedHash op n fn m true s).node_hash =
      (Node.mkDerivedHash op n fn m true s).dag_hash_without_sizes ∧
    (Node.mkExplicitHash op n h fn m s).node_hash = h :=
  ⟨rfl, rfl, rfl⟩

/-- C3: every node construction takes its trace index from the next-index
counter and is appended to the current buffer, so building N nodes from an
empty current buffer records the trace indices 0..N-1 in construction
order, for any mix of the two constructor forms. -/
theorem C3_trace_indices (sps : List NodeSpec) (s : TraceState)
    (h : s.node_list = []) :
    traceIndices (buildNodes sps s) = List.range sps.length := by
  rw [traceIndices_buildNodes, h, List.range_eq_range']
  simp [traceIndices, h]

/-- C3 witness: building a derived-hash node and then an explicit-hash node
from the empty trace records the indices [0, 1]. -/
theorem C3_trace_indices_witness :
    ({ node_list := [], last_node_list := [] } : TraceState).node_list = [] ∧
    traceIndices (buildNodes twoSpecs { node_list := [], last_node_list := [] }) =
      List.range twoSpecs.length :=
  ⟨rfl, C3_trace_indices twoSpecs { node_list := [], last_node_list := [] } rfl⟩

/-- C4: ClearNodeList moves the current buffer into last (dropping the
previous last) and empties the current buffer; hence flushing an empty
current buffer yields an empty last, and a second flush with no intervening
construction leaves last empty. -/
theorem C4_flush (s : TraceState) :
    (ClearNodeList s).last_node_list = s.node_list ∧
    (ClearNodeList s).node_list = [] ∧
    (ClearNodeList (ClearNodeList s)).last_node_list = [] :=
  ⟨rfl, rfl, rfl⟩

/-- C6: every call of enableDynamicShape returns (environment presence at
the first call) OR (flag at this call) — the environment is checked once,
the flag re-read each call; in particular, with the environment toggle
present at the first call and the flag false at it, every call returns true
regardless of later flag or environment values. -/
theorem C6_enableDynamicShape (c : Bool × Bool) (cs : List (Bool × Bool)) :
    enableDynamicShapeCalls none (c :: cs) = (c :: cs).map (fun d => c.1 || d.2) ∧
    enableDynamicShapeCalls none ((true, false) :: cs) =
      true :: cs.map (fun _ => true) := by
  constructor
  · show (c.1 || c.2) :: enableDynamicShapeCalls (some c.1) cs = _
    rw [enableDynamicShapeCalls_some]
    simp
  · show (true || false) :: enableDynamicShapeCalls (some true) cs = _
    rw [enableDynamicShapeCalls_some]
    simp

/-- C7: the edge content hash agrees across the two edge types — for the
same node and index, Output.hash and Value.hash both combine the node hash
with the hash of the index. -/
theorem C7_edge_hash_cross_type (n : Node) (i : Nat) :
    Output.hash { node := n, index := i } = Value.hash { node := n, index := i } ∧
    Output.hash { node := n, index := i } = HashCombine n.hash (Hash i) :=
  ⟨rfl, rfl⟩

/-- C8: two nodes built by the derived-hash constructor from the same op,
output count and pure callback under the same dynamic-shape mode agree on
all three hash fields, whatever their metadata and trace states are. -/
theorem C8_hash_determinism (op : OpKind) (n : Nat) (fn : Bool → hash_t)
    (m1 m2 : MetaData) (dyn : Bool) (s1 s2 : TraceState) :
    (Node.mkDerivedHash op n fn m1 dyn s1).node_hash =
      (Node.mkDerivedHash op n fn m2 dyn s2).node_hash ∧
    (Node.mkDerivedHash op n fn m1 dyn s1).dag_hash_without_sizes =
      (Node.mkDerivedHash op n fn m2 dyn s2).dag_hash_without_sizes ∧
    (Node.mkDerivedHash op n fn m1 dyn s1).dag_hash_with_sizes =
      (Node.mkDerivedHash op n fn m2 dyn s2).dag_hash_with_sizes :=
  ⟨rfl, rfl, rfl⟩

/-- C9: if the environment variable is absent at the first call, the
memoized check records that permanently: every call, including the first,
returns exactly the flag current at that call, even when the environment
column of later calls is true. -/
theorem C9_env_absent_at_first_call (f0 : Bool) (cs : List (Bool × Bool)) :
    enableDynamicShapeCalls none ((false, f0) :: cs) =
      f0 :: cs.map (fun d => d.2) := by
  show (false || f0) :: enableDynamicShapeCalls (some false) cs = _
  rw [enableDynamicShapeCalls_some]
  simp

end torch.lazy

namespace native

/-- C5: when the upstream gradient grad_out_ is undefined (a
default-constructed tensor, modelled as none), the nested flash-attention
backward entry point returns three undefined tensors and performs no
external call at all — no preprocessing, no kernel, no postprocessing. -/
theorem C5_undefined_grad_short_circuit (ext : SdpaExterns)
    (query key value out logsumexp cq ck : Tensor) (mxq mxk : Int)
    (p : CDouble) (c : Bool) (seed off : Int) (sc : Option CDouble) :
    scaled_dot_product_flash_attention_backward_nested ext none query key value
      out logsumexp cq ck mxq mxk p c seed off sc = ((none, none, none), []) :=
  rfl

/-- C10: on the defined-gradient path the event trace shows exactly one
preprocessing call — packing only grad_out_, query, key, value and the
forward output — followed by one dense-kernel call whose logsumexp, both
cumulative-sequence-length tensors, both maximum sequence lengths, dropout
probability, causal flag, philox seed and offset, and scale are the
original arguments unchanged, and whose five tensor inputs are the
preprocessing outputs; then one postprocessing call on the kernel
gradients. -/
theorem C10_kernel_args_forwarded (ext : SdpaExterns) (g : Nat)
    (query key value out logsumexp cq ck : Tensor) (mxq mxk : Int)
    (p : CDouble) (c : Bool) (seed off : Int) (sc : Option CDouble) :
    (scaled_dot_product_flash_attention_backward_nested ext (some g) query key
        value out logsumexp cq ck mxq mxk p c seed off sc).2 =
      (let pre := ext.prepro (some g) query key value out cq ck mxq mxk
       let args : FlashBackwardArgs :=
         { grad_out := pre.1
           query := pre.2.1
           key := pre.2.2.1
           value := pre.2.2.2.1
           out := pre.2.2.2.2
           logsumexp := logsumexp
           cum_seq_q := cq
           cum_seq_k := ck
           max_q := mxq
           max_k := mxk
           dropout_p := p
           is_causal := c
           philox_seed := seed
           philox_offset := off
           scale := sc }
       let grads := ext.kernel args
       [SdpaEvent.preproBackward (some g) query key value out cq ck mxq mxk,
        SdpaEvent.flashAttentionBackward args,
        SdpaEvent.postproBackward query key value grads.1 grads.2.1 grads.2.2]) :=
  rfl

end native
